import Mathlib

/-!
# Verification of the ofxOilPaint painting simulator (`ofxOilSimulator`)

The repository ships only the class declaration `src/ofxOilSimulator.h`
(constants, method signatures and member fields); the method bodies live in a
`.cpp` translation unit that is not part of the sources.  Every operation is
therefore modelled from the specification's description of the simulator
(raster planes, acceptance pipeline, brush schedule, simulator loop), keeping
the names declared in the header.  Floating point quantities are modelled as
exact rationals, colors as integer RGB triples, and pixel planes as lists
indexed by `y * width + x`.
-/

set_option linter.unusedVariables false

namespace OfxOil

/-- An RGB color with integer channels, modelling `ofColor` (alpha ignored:
the simulator's planes are RGB). -/
structure RGB where
  r : Int
  g : Int
  b : Int
deriving DecidableEq, Repr

instance : Inhabited RGB := ⟨⟨0, 0, 0⟩⟩

/-- An integer pixel position on the canvas. -/
structure Pt where
  x : Int
  y : Int
deriving DecidableEq, Repr

/-- Modelled from the spec: the process-wide tuning constants declared as
static members of `ofxOilSimulator` in the header, gathered into an explicit
configuration record (the spec's §9 recommendation).  `float` members are
modelled as rationals, `array<int, 3>` as a triple of integers and the two
`unsigned int` budgets as naturals.  `epsilon` is the ε guard used in the
`dOld / max(dNew, ε)` improvement ratio of `traceImprovesPainting`. -/
structure Config where
  SMALLER_BRUSH_SIZE : ℚ
  BRUSH_SIZE_DECREMENT : ℚ
  MAX_INVALID_TRAJECTORIES : Nat
  MAX_INVALID_TRAJECTORIES_FOR_SMALLER_SIZE : Nat
  MAX_INVALID_TRACES : Nat
  MAX_INVALID_TRACES_FOR_SMALLER_SIZE : Nat
  TRACE_SPEED : ℚ
  RELATIVE_TRACE_LENGTH : ℚ
  MIN_TRACE_LENGTH : ℚ
  BACKGROUND_COLOR : RGB
  MAX_COLOR_DIFFERENCE : Int × Int × Int
  MAX_VISITS_FRACTION_IN_TRAJECTORY : ℚ
  MIN_INSIDE_FRACTION_IN_TRAJECTORY : ℚ
  MAX_SIMILAR_COLOR_FRACTION_IN_TRAJECTORY : ℚ
  MAX_COLOR_STDEV_IN_TRAJECTORY : ℚ
  MIN_INSIDE_FRACTION : ℚ
  MAX_SIMILAR_COLOR_FRACTION : ℚ
  MAX_PAINTED_FRACTION : ℚ
  MIN_COLOR_IMPROVEMENT_FACTOR : ℚ
  BIG_WELL_PAINTED_IMPROVEMENT_FRACTION : ℚ
  MIN_BAD_PAINTED_REDUCTION_FRACTION : ℚ
  MAX_WELL_PAINTED_DESTRUCTION_FRACTION : ℚ
  epsilon : ℚ
deriving DecidableEq, Repr

/-- A (step, bristle) sample of a trace: its integer pixel footprint and the
precomputed bristle color (`calculateBristleColors` is an external
collaborator; its result is part of the trace value). -/
structure Sample where
  pos : Pt
  color : RGB
deriving DecidableEq, Repr

/-- Modelled from the spec: the `ofxOilTrace` collaborator, reduced to the
data the simulator consumes — the trajectory pixel positions (one per step)
and the per-step bristle samples with their precomputed colors.  `nSteps` is
the number of steps. -/
structure TraceData where
  trajectory : List Pt
  stepSamples : List (List Sample)
deriving DecidableEq, Repr

instance : Inhabited TraceData := ⟨⟨[], []⟩⟩

/-- The number of steps of a trace. -/
def TraceData.nSteps (t : TraceData) : Nat := t.stepSamples.length

/-- All (step, bristle) samples of the trace, in step order. -/
def TraceData.allSamples (t : TraceData) : List Sample := t.stepSamples.flatten

/-- Modelled from the spec: the member state of `ofxOilSimulator`.  The
graphics objects (`ofImage img`, `ofFbo canvas`, `ofPixels` planes) are
modelled as lists of length `imgWidth * imgHeight` indexed by
`y * imgWidth + x`; `canvas` is the off-screen surface that receives the
bristle stamps and is read back into `paintedPixels` by
`updatePixelArrays`.  The two invalid counters are declared in the missing
`.cpp`; the spec's §4.3 names them. -/
structure SimState where
  useCanvasBuffer : Bool
  verbose : Bool
  imgWidth : Nat
  imgHeight : Nat
  imgPixels : List RGB
  canvas : List RGB
  visitedPixels : List Nat
  paintedPixels : List RGB
  similarColorPixels : List Nat
  badPaintedPixels : List Nat
  nBadPaintedPixels : Nat
  averageBrushSize : ℚ
  paintingIsFinised : Bool
  obtainNewTrace : Bool
  trace : TraceData
  traceStep : Nat
  nTraces : Nat
  invalidTrajectoriesCount : Nat
  invalidTracesCount : Nat
deriving DecidableEq, Repr

/-- The total number of pixels of the bound image. -/
def SimState.nPixels (st : SimState) : Nat := st.imgWidth * st.imgHeight

/-- Whether an integer position falls inside the canvas. -/
def insideCanvas (w h : Nat) (p : Pt) : Bool :=
  decide (0 ≤ p.x ∧ p.x < (w : Int) ∧ 0 ≤ p.y ∧ p.y < (h : Int))

/-- The linear index of an in-canvas position. -/
def pixelIndex (w : Nat) (p : Pt) : Nat := p.y.toNat * w + p.x.toNat

/-- Modelled from the spec: a pixel is well painted when every channel of the
painted color is within `MAX_COLOR_DIFFERENCE` of the target color. -/
def colorsSimilar (cfg : Config) (painted target : RGB) : Bool :=
  decide (|painted.r - target.r| ≤ cfg.MAX_COLOR_DIFFERENCE.1 ∧
    |painted.g - target.g| ≤ cfg.MAX_COLOR_DIFFERENCE.2.1 ∧
    |painted.b - target.b| ≤ cfg.MAX_COLOR_DIFFERENCE.2.2)

/-- Modelled from the spec: the `similar` plane recomputed by a linear scan,
cell `255` iff the painted color matches the target within
`MAX_COLOR_DIFFERENCE`, else `0`. -/
def computeSimilar (cfg : Config) (n : Nat) (target painted : List RGB) : List Nat :=
  (List.range n).map fun i =>
    if colorsSimilar cfg (painted.getD i default) (target.getD i default) then 255 else 0

/-- Modelled from the spec: the `badPainted` index list rebuilt by a linear
scan — exactly the pixel indices whose `similar` cell is `0`. -/
def computeBadPainted (n : Nat) (similar : List Nat) : List Nat :=
  (List.range n).filter fun i => similar.getD i 0 == 0

/-- The target color under a sample's footprint pixel. -/
def sampleTarget (st : SimState) (s : Sample) : RGB :=
  st.imgPixels.getD (pixelIndex st.imgWidth s.pos) default

/-- The currently painted color under a sample's footprint pixel. -/
def samplePainted (st : SimState) (s : Sample) : RGB :=
  st.paintedPixels.getD (pixelIndex st.imgWidth s.pos) default

/-- The `similar` plane cell under a sample's footprint pixel. -/
def sampleSimilar (st : SimState) (s : Sample) : Nat :=
  st.similarColorPixels.getD (pixelIndex st.imgWidth s.pos) 0

/-- The sum of the per-channel absolute color differences, the integer color
distance used for the `dOld` / `dNew` means. -/
def colorDist (a b : RGB) : Int :=
  |a.r - b.r| + |a.g - b.g| + |a.b - b.b|

/-- Whether a trajectory point is in canvas and its `visited` cell is
non-zero. -/
def visitedInside (st : SimState) (p : Pt) : Bool :=
  insideCanvas st.imgWidth st.imgHeight p &&
    !(st.visitedPixels.getD (pixelIndex st.imgWidth p) 0 == 0)

/-- The number of trajectory points that fall inside the canvas. -/
def insidePointCount (st : SimState) (pts : List Pt) : Nat :=
  pts.countP fun p => insideCanvas st.imgWidth st.imgHeight p

/-- The number of in-canvas trajectory points whose `visited` cell is
non-zero. -/
def visitedPointCount (st : SimState) (pts : List Pt) : Nat :=
  pts.countP fun p => visitedInside st p

/-- Modelled from the spec: the single pass over the trajectory that counts
the in-canvas points and, among them, the ones already visited. -/
def visitStats (st : SimState) (pts : List Pt) : Nat × Nat :=
  pts.foldl
    (fun acc p =>
      if insideCanvas st.imgWidth st.imgHeight p then
        (acc.1 + 1,
          if st.visitedPixels.getD (pixelIndex st.imgWidth p) 0 == 0 then acc.2
          else acc.2 + 1)
      else acc)
    (0, 0)

/-- Modelled from the spec: `alreadyVisitedTrajectory` — true iff the
fraction of in-canvas trajectory points with a non-zero `visited` cell
exceeds `MAX_VISITS_FRACTION_IN_TRAJECTORY`; out-of-canvas points count
toward neither the numerator nor the denominator. -/
def alreadyVisitedTrajectory (cfg : Config) (st : SimState) (pts : List Pt) : Bool :=
  let stats := visitStats st pts
  decide (cfg.MAX_VISITS_FRACTION_IN_TRAJECTORY < (stats.2 : ℚ) / (stats.1 : ℚ))

/-- The target color under a trajectory point. -/
def pointTarget (st : SimState) (p : Pt) : RGB :=
  st.imgPixels.getD (pixelIndex st.imgWidth p) default

/-- The painted color under a trajectory point. -/
def pointPainted (st : SimState) (p : Pt) : RGB :=
  st.paintedPixels.getD (pixelIndex st.imgWidth p) default

/-- The mean of a list of integer channel values, as a rational. -/
def chanMean (vals : List Int) : ℚ := ((vals.sum : Int) : ℚ) / vals.length

/-- The variance of a list of integer channel values, as a rational. -/
def chanVar (vals : List Int) : ℚ :=
  (((vals.map fun v => v * v).sum : Int) : ℚ) / vals.length - chanMean vals ^ 2

/-- Modelled from the spec: `validTrajectory` — the in-canvas fraction is at
least `MIN_INSIDE_FRACTION_IN_TRAJECTORY`, the fraction of in-canvas points
already painted with a similar color is at most
`MAX_SIMILAR_COLOR_FRACTION_IN_TRAJECTORY`, and the per-channel standard
deviation of the target colors along the in-canvas points is at most
`MAX_COLOR_STDEV_IN_TRAJECTORY` (compared through its square to stay in
exact arithmetic). -/
def validTrajectory (cfg : Config) (st : SimState) (pts : List Pt) : Bool :=
  let inPts := pts.filter fun p => insideCanvas st.imgWidth st.imgHeight p
  let nIn := inPts.length
  let nSim := inPts.countP fun p => colorsSimilar cfg (pointPainted st p) (pointTarget st p)
  let targets := inPts.map fun p => pointTarget st p
  decide (cfg.MIN_INSIDE_FRACTION_IN_TRAJECTORY ≤ (nIn : ℚ) / (pts.length : ℚ) ∧
    (nSim : ℚ) / (nIn : ℚ) ≤ cfg.MAX_SIMILAR_COLOR_FRACTION_IN_TRAJECTORY ∧
    chanVar (targets.map RGB.r) ≤ cfg.MAX_COLOR_STDEV_IN_TRAJECTORY ^ 2 ∧
    chanVar (targets.map RGB.g) ≤ cfg.MAX_COLOR_STDEV_IN_TRAJECTORY ^ 2 ∧
    chanVar (targets.map RGB.b) ≤ cfg.MAX_COLOR_STDEV_IN_TRAJECTORY ^ 2)

/-- The trace samples whose footprint falls inside the canvas. -/
def insideSamples (st : SimState) (samples : List Sample) : List Sample :=
  samples.filter fun s => insideCanvas st.imgWidth st.imgHeight s.pos

/-- `Nsim`: in-canvas samples whose painted color already matches the target
within `MAX_COLOR_DIFFERENCE`. -/
def similarSampleCount (cfg : Config) (st : SimState) (samples : List Sample) : Nat :=
  (insideSamples st samples).countP fun s =>
    colorsSimilar cfg (samplePainted st s) (sampleTarget st s)

/-- `Npaintedish`: in-canvas samples whose painted color differs from
`BACKGROUND_COLOR` (already touched by some trace). -/
def paintedSampleCount (cfg : Config) (st : SimState) (samples : List Sample) : Nat :=
  (insideSamples st samples).countP fun s => !(samplePainted st s == cfg.BACKGROUND_COLOR)

/-- `dOld`: mean color distance between the painted and target colors over
the in-canvas samples. -/
def meanDistOld (st : SimState) (samples : List Sample) : ℚ :=
  let ins := insideSamples st samples
  ((((ins.map fun s => colorDist (samplePainted st s) (sampleTarget st s)).sum : Int) : ℚ)) /
    (ins.length : ℚ)

/-- `dNew`: mean color distance between the proposed bristle colors and the
target colors over the in-canvas samples. -/
def meanDistNew (st : SimState) (samples : List Sample) : ℚ :=
  let ins := insideSamples st samples
  ((((ins.map fun s => colorDist s.color (sampleTarget st s)).sum : Int) : ℚ)) /
    (ins.length : ℚ)

/-- `wellBefore`: in-canvas samples whose pixel was previously well painted
(`similar = 255`). -/
def wellBeforeCount (st : SimState) (samples : List Sample) : Nat :=
  (insideSamples st samples).countP fun s => sampleSimilar st s == 255

/-- `wellAfter`: in-canvas samples whose proposed bristle color is within
`MAX_COLOR_DIFFERENCE` of the target. -/
def wellAfterCount (cfg : Config) (st : SimState) (samples : List Sample) : Nat :=
  (insideSamples st samples).countP fun s => colorsSimilar cfg s.color (sampleTarget st s)

/-- The reduction in bad painted pixels covered by the trace: in-canvas
samples whose pixel was bad painted (`similar = 0`) and whose proposed
bristle color is within `MAX_COLOR_DIFFERENCE` of the target. -/
def badPaintedReductionCount (cfg : Config) (st : SimState) (samples : List Sample) : Nat :=
  (insideSamples st samples).countP fun s =>
    sampleSimilar st s == 0 && colorsSimilar cfg s.color (sampleTarget st s)

/-- Modelled from the spec: `traceImprovesPainting` — the staged acceptance
predicate over the (step, bristle) samples with precomputed bristle colors.
It rejects in turn on the inside fraction, the similar-color fraction and
the already-painted fraction, and then accepts iff either the color
improvement branch (a) or the big well-painted improvement branch (b)
holds. -/
def traceImprovesPainting (cfg : Config) (st : SimState) (samples : List Sample) : Bool :=
  if ((insideSamples st samples).length : ℚ) / (samples.length : ℚ) < cfg.MIN_INSIDE_FRACTION then
    false
  else if cfg.MAX_SIMILAR_COLOR_FRACTION <
      (similarSampleCount cfg st samples : ℚ) / ((insideSamples st samples).length : ℚ) then
    false
  else if cfg.MAX_PAINTED_FRACTION <
      (paintedSampleCount cfg st samples : ℚ) / ((insideSamples st samples).length : ℚ) then
    false
  else
    decide ((cfg.MIN_COLOR_IMPROVEMENT_FACTOR ≤
          meanDistOld st samples / max (meanDistNew st samples) cfg.epsilon ∧
        ((wellBeforeCount st samples : ℚ) - (wellAfterCount cfg st samples : ℚ)) /
            ((insideSamples st samples).length : ℚ) ≤
          cfg.MAX_WELL_PAINTED_DESTRUCTION_FRACTION ∧
        cfg.MIN_BAD_PAINTED_REDUCTION_FRACTION ≤
          (badPaintedReductionCount cfg st samples : ℚ) /
            ((insideSamples st samples).length : ℚ)) ∨
      cfg.BIG_WELL_PAINTED_IMPROVEMENT_FRACTION ≤
        ((wellAfterCount cfg st samples : ℚ) - (wellBeforeCount st samples : ℚ)) /
          ((insideSamples st samples).length : ℚ))

/-- The brush size produced by one shrink when the floor has not been
reached: `max(SMALLER_BRUSH_SIZE, size * BRUSH_SIZE_DECREMENT)`; at the
floor the size is left unchanged (the shrink finishes the painting
instead). -/
def shrunkSize (cfg : Config) (size : ℚ) : ℚ :=
  if cfg.SMALLER_BRUSH_SIZE < size then
    max cfg.SMALLER_BRUSH_SIZE (size * cfg.BRUSH_SIZE_DECREMENT)
  else size

/-- Modelled from the spec: the shrink transition of the brush schedule — if
`averageBrushSize > SMALLER_BRUSH_SIZE`, set it to
`max(SMALLER_BRUSH_SIZE, averageBrushSize * BRUSH_SIZE_DECREMENT)` and reset
the two invalid counters; otherwise set `paintingIsFinised` (the painting is
done at the floor size). -/
def shrinkBrush (cfg : Config) (st : SimState) : SimState :=
  if cfg.SMALLER_BRUSH_SIZE < st.averageBrushSize then
    { st with
      averageBrushSize := max cfg.SMALLER_BRUSH_SIZE (st.averageBrushSize * cfg.BRUSH_SIZE_DECREMENT),
      invalidTrajectoriesCount := 0,
      invalidTracesCount := 0 }
  else { st with paintingIsFinised := true }

/-- The invalid-trajectory budget: the `_FOR_SMALLER_SIZE` variant once the
brush has reached the floor size. -/
def trajectoryBudget (cfg : Config) (st : SimState) : Nat :=
  if cfg.SMALLER_BRUSH_SIZE < st.averageBrushSize then cfg.MAX_INVALID_TRAJECTORIES
  else cfg.MAX_INVALID_TRAJECTORIES_FOR_SMALLER_SIZE

/-- The invalid-trace budget: the `_FOR_SMALLER_SIZE` variant once the brush
has reached the floor size. -/
def traceBudget (cfg : Config) (st : SimState) : Nat :=
  if cfg.SMALLER_BRUSH_SIZE < st.averageBrushSize then cfg.MAX_INVALID_TRACES
  else cfg.MAX_INVALID_TRACES_FOR_SMALLER_SIZE

/-- Shrink the brush when the invalid-trajectory counter exceeds its
budget. -/
def checkTrajectoryBudget (cfg : Config) (st : SimState) : SimState :=
  if trajectoryBudget cfg st < st.invalidTrajectoriesCount then shrinkBrush cfg st else st

/-- Shrink the brush when the invalid-trace counter exceeds its budget. -/
def checkTraceBudget (cfg : Config) (st : SimState) : SimState :=
  if traceBudget cfg st < st.invalidTracesCount then shrinkBrush cfg st else st

/-- Modelled from the spec: a rejected trajectory increments the invalid
trajectory counter and triggers a shrink once the counter exceeds the budget
(the `_FOR_SMALLER_SIZE` budget at the floor size). -/
def handleInvalidTrajectory (cfg : Config) (st : SimState) : SimState :=
  checkTrajectoryBudget cfg
    { st with invalidTrajectoriesCount := st.invalidTrajectoriesCount + 1 }

/-- Modelled from the spec: a trace that fails `traceImprovesPainting`
increments the invalid trace counter and triggers a shrink once the counter
exceeds the budget (the `_FOR_SMALLER_SIZE` budget at the floor size). -/
def handleInvalidTrace (cfg : Config) (st : SimState) : SimState :=
  checkTraceBudget cfg { st with invalidTracesCount := st.invalidTracesCount + 1 }

/-- Stamp a list of bristle samples onto a canvas plane: each in-canvas
sample writes its bristle color at its footprint pixel. -/
def stampSamples (w h : Nat) (canvas : List RGB) (samples : List Sample) : List RGB :=
  samples.foldl
    (fun c s => if insideCanvas w h s.pos then c.set (pixelIndex w s.pos) s.color else c)
    canvas

/-- Modelled from the spec: `updatePixelArrays` — read the canvas back into
`paintedPixels`, recompute the `similar` plane, rebuild `badPaintedPixels`
by a linear scan and update `nBadPaintedPixels`. -/
def updatePixelArrays (cfg : Config) (st : SimState) : SimState :=
  let painted := st.canvas
  let similar := computeSimilar cfg st.nPixels st.imgPixels painted
  let bad := computeBadPainted st.nPixels similar
  { st with
    paintedPixels := painted,
    similarColorPixels := similar,
    badPaintedPixels := bad,
    nBadPaintedPixels := bad.length }

/-- Modelled from the spec: `updateVisitedPixels` — for each (step, bristle)
sample of the trace, saturating-increment the `visited` cell at its
in-canvas footprint pixel (per-bristle saturating increment, bounded by
255). -/
def updateVisitedPixels (st : SimState) : SimState :=
  { st with
    visitedPixels :=
      st.trace.allSamples.foldl
        (fun v s =>
          if insideCanvas st.imgWidth st.imgHeight s.pos then
            v.set (pixelIndex st.imgWidth s.pos)
              (min 255 (v.getD (pixelIndex st.imgWidth s.pos) 0 + 1))
          else v)
        st.visitedPixels }

/-- Modelled from the spec: the bookkeeping that runs when the current trace
has been painted completely — refresh the pixel arrays, mark the visited
pixels, count the trace, ask for a new trace and reset both invalid
counters. -/
def finishTrace (cfg : Config) (st : SimState) : SimState :=
  let st1 := updateVisitedPixels (updatePixelArrays cfg st)
  { st1 with
    nTraces := st1.nTraces + 1,
    obtainNewTrace := true,
    invalidTrajectoriesCount := 0,
    invalidTracesCount := 0 }

/-- Modelled from the spec: `paintTraceStep` — stamp the bristle samples of
the current step onto the canvas and advance `traceStep`. -/
def paintTraceStep (st : SimState) : SimState :=
  { st with
    canvas := stampSamples st.imgWidth st.imgHeight st.canvas
      (st.trace.stepSamples.getD st.traceStep []),
    traceStep := st.traceStep + 1 }

/-- Modelled from the spec: `paintTrace` — stamp every step of the current
trace onto the canvas and run the end-of-trace bookkeeping. -/
def paintTrace (cfg : Config) (st : SimState) : SimState :=
  finishTrace cfg
    { st with
      canvas := stampSamples st.imgWidth st.imgHeight st.canvas st.trace.allSamples,
      traceStep := st.trace.nSteps }

/-- Modelled from the spec: `update(stepByStep)` — the simulator loop.  The
candidate trace produced by the external random trace generator (with its
bristle colors precomputed by the external mixer) is passed as the `cand`
oracle argument.  If the painting is finished the call is a no-op; if a new
trace is needed, the candidate runs through the acceptance pipeline, a
rejection incrementing the corresponding counter and possibly shrinking the
brush; an accepted trace is painted completely unless `stepByStep` is set;
otherwise one step of the current trace is stamped and the end-of-trace
bookkeeping runs when the last step has been stamped. -/
def update (cfg : Config) (st : SimState) (cand : TraceData) (stepByStep : Bool) : SimState :=
  if st.paintingIsFinised then st
  else if st.obtainNewTrace then
    if alreadyVisitedTrajectory cfg st cand.trajectory ||
        !(validTrajectory cfg st cand.trajectory) then
      handleInvalidTrajectory cfg st
    else if !(traceImprovesPainting cfg st cand.allSamples) then
      handleInvalidTrace cfg st
    else if stepByStep then { st with trace := cand, obtainNewTrace := false, traceStep := 0 }
    else paintTrace cfg { st with trace := cand, obtainNewTrace := false, traceStep := 0 }
  else if (paintTraceStep st).traceStep == st.trace.nSteps then finishTrace cfg (paintTraceStep st)
  else paintTraceStep st

/-- Modelled from the spec: `setImagePixels(imagePixels, clearCanvas)` —
rebind the target image and its dimensions, reinitialise the brush schedule
to `max(SMALLER_BRUSH_SIZE, max(W, H) / 6)` and the loop state; when
`clearCanvas` is set, reset the canvas and `paintedPixels` to
`BACKGROUND_COLOR`, reset `visitedPixels` to 0, recompute the `similar`
plane and refill `badPaintedPixels` with all pixel indices; otherwise leave
the canvas, painted and visited planes as they are and recompute the
`similar` plane and `badPaintedPixels`. -/
def setImagePixels (cfg : Config) (st : SimState) (w h : Nat) (pixels : List RGB)
    (clearCanvas : Bool) : SimState :=
  let n := w * h
  let base :=
    { st with
      imgWidth := w,
      imgHeight := h,
      imgPixels := pixels,
      averageBrushSize := max cfg.SMALLER_BRUSH_SIZE ((max w h : Nat) / 6 : ℚ),
      paintingIsFinised := false,
      obtainNewTrace := true,
      traceStep := 0,
      nTraces := 0,
      invalidTrajectoriesCount := 0,
      invalidTracesCount := 0 }
  if clearCanvas then
    let painted := List.replicate n cfg.BACKGROUND_COLOR
    { base with
      canvas := painted,
      paintedPixels := painted,
      visitedPixels := List.replicate n 0,
      similarColorPixels := computeSimilar cfg n pixels painted,
      badPaintedPixels := List.range n,
      nBadPaintedPixels := n }
  else
    let similar := computeSimilar cfg n pixels base.paintedPixels
    let bad := computeBadPainted n similar
    { base with
      similarColorPixels := similar,
      badPaintedPixels := bad,
      nBadPaintedPixels := bad.length }

/-- Modelled from the spec: `isFinished` — a pure query of the
`paintingIsFinised` flag. -/
def isFinished (st : SimState) : Bool := st.paintingIsFinised

/-- Modelled from the spec: the constructor body stores the two
configuration flags and leaves the image-dependent state empty until
`setImage` binds a target; the declared default arguments of the header are
`_useCanvasBuffer = true` and `_verbose = true`. -/
def mkOfxOilSimulator (useCanvasBufferArg verboseArg : Bool) : SimState :=
  { useCanvasBuffer := useCanvasBufferArg,
    verbose := verboseArg,
    imgWidth := 0,
    imgHeight := 0,
    imgPixels := [],
    canvas := [],
    visitedPixels := [],
    paintedPixels := [],
    similarColorPixels := [],
    badPaintedPixels := [],
    nBadPaintedPixels := 0,
    averageBrushSize := 0,
    paintingIsFinised := false,
    obtainNewTrace := true,
    trace := default,
    traceStep := 0,
    nTraces := 0,
    invalidTrajectoriesCount := 0,
    invalidTracesCount := 0 }

/-- Constructing the simulator with no arguments: both default arguments of
the header declaration apply. -/
def mkOfxOilSimulatorNoArgs : SimState := mkOfxOilSimulator true true

/-- A sequence of `update` calls, each with its candidate trace oracle and
its `stepByStep` flag. -/
def runUpdates (cfg : Config) (st : SimState) (inputs : List (TraceData × Bool)) : SimState :=
  inputs.foldl (fun s i => update cfg s i.1 i.2) st

/-! ## Invariants of the raster planes -/

/-- The `similar` plane invariant over a pixel count, a target plane, a
painted plane and a `similar` plane: every in-canvas cell is `0` or `255`,
and is `255` exactly when every channel of the painted color is within
`MAX_COLOR_DIFFERENCE` of the target color. -/
def similarPlaneOK (cfg : Config) (n : Nat) (target painted : List RGB)
    (similar : List Nat) : Prop :=
  ∀ p, p < n →
    (similar.getD p 0 = 0 ∨ similar.getD p 0 = 255) ∧
    (similar.getD p 0 = 255 ↔
      colorsSimilar cfg (painted.getD p default) (target.getD p default) = true)

/-- The `similar` plane invariant of a simulator state. -/
def SimilarInv (cfg : Config) (st : SimState) : Prop :=
  similarPlaneOK cfg st.nPixels st.imgPixels st.paintedPixels st.similarColorPixels

/-- The `badPainted` invariant over a pixel count, a `similar` plane, an
index list and a counter: the list holds exactly the indices of the pixels
whose `similar` cell is `0`, its length is the counter, and the counter is
the number of such pixels. -/
def badPlaneOK (n : Nat) (similar bad : List Nat) (nBad : Nat) : Prop :=
  (∀ i, i ∈ bad ↔ i < n ∧ similar.getD i 0 = 0) ∧
  bad.length = nBad ∧
  nBad = (List.range n).countP fun i => similar.getD i 0 == 0

/-- The `badPainted` invariant of a simulator state. -/
def BadPaintedInv (st : SimState) : Prop :=
  badPlaneOK st.nPixels st.similarColorPixels st.badPaintedPixels st.nBadPaintedPixels

/-! ## Concrete sample data used to instantiate the theorems -/

/-- A sample configuration with small rational values (mirroring the order
of magnitude of the library defaults). -/
def exCfg : Config where
  SMALLER_BRUSH_SIZE := 1
  BRUSH_SIZE_DECREMENT := 1 / 2
  MAX_INVALID_TRAJECTORIES := 2
  MAX_INVALID_TRAJECTORIES_FOR_SMALLER_SIZE := 2
  MAX_INVALID_TRACES := 2
  MAX_INVALID_TRACES_FOR_SMALLER_SIZE := 2
  TRACE_SPEED := 2
  RELATIVE_TRACE_LENGTH := 2
  MIN_TRACE_LENGTH := 4
  BACKGROUND_COLOR := ⟨255, 255, 255⟩
  MAX_COLOR_DIFFERENCE := (40, 40, 40)
  MAX_VISITS_FRACTION_IN_TRAJECTORY := 1 / 3
  MIN_INSIDE_FRACTION_IN_TRAJECTORY := 7 / 10
  MAX_SIMILAR_COLOR_FRACTION_IN_TRAJECTORY := 6 / 10
  MAX_COLOR_STDEV_IN_TRAJECTORY := 45
  MIN_INSIDE_FRACTION := 7 / 10
  MAX_SIMILAR_COLOR_FRACTION := 8 / 10
  MAX_PAINTED_FRACTION := 65 / 100
  MIN_COLOR_IMPROVEMENT_FACTOR := 6 / 10
  BIG_WELL_PAINTED_IMPROVEMENT_FRACTION := 3 / 10
  MIN_BAD_PAINTED_REDUCTION_FRACTION := 45 / 100
  MAX_WELL_PAINTED_DESTRUCTION_FRACTION := 4 / 10
  epsilon := 1 / 1000

/-- A sample 1×1 simulator state mid-session: one bad painted pixel, brush
above the floor size, five traces painted. -/
def exSt : SimState where
  useCanvasBuffer := true
  verbose := false
  imgWidth := 1
  imgHeight := 1
  imgPixels := [⟨0, 0, 0⟩]
  canvas := [⟨255, 255, 255⟩]
  visitedPixels := [0]
  paintedPixels := [⟨255, 255, 255⟩]
  similarColorPixels := [0]
  badPaintedPixels := [0]
  nBadPaintedPixels := 1
  averageBrushSize := 4
  paintingIsFinised := false
  obtainNewTrace := true
  trace := default
  traceStep := 0
  nTraces := 5
  invalidTrajectoriesCount := 0
  invalidTracesCount := 0

/-- The sample state with the painting finished. -/
def exFinishedSt : SimState := { exSt with paintingIsFinised := true }

/-- A one-step, one-bristle sample trace. -/
def exTrace : TraceData := ⟨[⟨0, 0⟩], [[⟨⟨0, 0⟩, ⟨0, 0, 0⟩⟩]]⟩

/-- The state right after rebinding a 1×1 background-colored target with
`clearCanvas = true`: the target matches the cleared canvas, so its single
pixel is well painted while `badPaintedPixels` holds every index. -/
def exClearSt : SimState := setImagePixels exCfg exSt 1 1 [⟨255, 255, 255⟩] true

theorem computeSimilar_getD (cfg : Config) (n : Nat) (target painted : List RGB)
    (p : Nat) (hp : p < n) :
    (computeSimilar cfg n target painted).getD p 0 =
      if colorsSimilar cfg (painted.getD p default) (target.getD p default) then 255 else 0 := by
  unfold computeSimilar
  rw [List.getD_eq_getElem?_getD]
  simp [List.getElem?_map, List.getElem?_range, hp]

theorem similarPlaneOK_compute (cfg : Config) (n : Nat) (target painted : List RGB) :
    similarPlaneOK cfg n target painted (computeSimilar cfg n target painted) := by
  intro p hp
  rw [computeSimilar_getD cfg n target painted p hp]
  by_cases h : colorsSimilar cfg (painted.getD p default) (target.getD p default)
  · simp [h]
  · simp [h]

theorem badPlaneOK_compute (n : Nat) (similar : List Nat) :
    badPlaneOK n similar (computeBadPainted n similar) (computeBadPainted n similar).length := by
  refine ⟨?_, rfl, ?_⟩
  · intro i
    unfold computeBadPainted
    simp [List.mem_filter, List.mem_range]
  · unfold computeBadPainted
    rw [List.countP_eq_length_filter]

theorem similarInv_updatePixelArrays (cfg : Config) (st : SimState) :
    SimilarInv cfg (updatePixelArrays cfg st) :=
  similarPlaneOK_compute cfg st.nPixels st.imgPixels st.canvas

theorem badInv_updatePixelArrays (cfg : Config) (st : SimState) :
    BadPaintedInv (updatePixelArrays cfg st) :=
  badPlaneOK_compute st.nPixels (computeSimilar cfg st.nPixels st.imgPixels st.canvas)

theorem similarInv_finishTrace (cfg : Config) (st : SimState) :
    SimilarInv cfg (finishTrace cfg st) :=
  similarPlaneOK_compute cfg st.nPixels st.imgPixels st.canvas

theorem badInv_finishTrace (cfg : Config) (st : SimState) :
    BadPaintedInv (finishTrace cfg st) :=
  badPlaneOK_compute st.nPixels (computeSimilar cfg st.nPixels st.imgPixels st.canvas)

theorem similarInv_update (cfg : Config) (st : SimState) (cand : TraceData) (sbs : Bool)
    (h : SimilarInv cfg st) : SimilarInv cfg (update cfg st cand sbs) := by
  unfold update
  split
  · exact h
  · split
    · split
      · unfold handleInvalidTrajectory checkTrajectoryBudget
        split
        · unfold shrinkBrush
          split
          · exact h
          · exact h
        · exact h
      · split
        · unfold handleInvalidTrace checkTraceBudget
          split
          · unfold shrinkBrush
            split
            · exact h
            · exact h
          · exact h
        · split
          · exact h
          · exact similarInv_finishTrace cfg _
    · split
      · exact similarInv_finishTrace cfg _
      · exact h

theorem badInv_update (cfg : Config) (st : SimState) (cand : TraceData) (sbs : Bool)
    (h : BadPaintedInv st) : BadPaintedInv (update cfg st cand sbs) := by
  unfold update
  split
  · exact h
  · split
    · split
      · unfold handleInvalidTrajectory checkTrajectoryBudget
        split
        · unfold shrinkBrush
          split
          · exact h
          · exact h
        · exact h
      · split
        · unfold handleInvalidTrace checkTraceBudget
          split
          · unfold shrinkBrush
            split
            · exact h
            · exact h
          · exact h
        · split
          · exact h
          · exact badInv_finishTrace cfg _
    · split
      · exact badInv_finishTrace cfg _
      · exact h

theorem lengthInv_update (cfg : Config) (st : SimState) (cand : TraceData) (sbs : Bool)
    (h : st.badPaintedPixels.length = st.nBadPaintedPixels) :
    (update cfg st cand sbs).badPaintedPixels.length =
      (update cfg st cand sbs).nBadPaintedPixels := by
  unfold update
  split
  · exact h
  · split
    · split
      · unfold handleInvalidTrajectory checkTrajectoryBudget
        split
        · unfold shrinkBrush
          split
          · exact h
          · exact h
        · exact h
      · split
        · unfold handleInvalidTrace checkTraceBudget
          split
          · unfold shrinkBrush
            split
            · exact h
            · exact h
          · exact h
        · split
          · exact h
          · exact rfl
    · split
      · exact rfl
      · exact h

theorem similarInv_runUpdates (cfg : Config) (st : SimState)
    (inputs : List (TraceData × Bool)) (h : SimilarInv cfg st) :
    SimilarInv cfg (runUpdates cfg st inputs) := by
  induction inputs generalizing st with
  | nil => exact h
  | cons i is ih => exact ih _ (similarInv_update cfg st i.1 i.2 h)

theorem badInv_runUpdates (cfg : Config) (st : SimState)
    (inputs : List (TraceData × Bool)) (h : BadPaintedInv st) :
    BadPaintedInv (runUpdates cfg st inputs) := by
  induction inputs generalizing st with
  | nil => exact h
  | cons i is ih => exact ih _ (badInv_update cfg st i.1 i.2 h)

theorem lengthInv_runUpdates (cfg : Config) (st : SimState)
    (inputs : List (TraceData × Bool))
    (h : st.badPaintedPixels.length = st.nBadPaintedPixels) :
    (runUpdates cfg st inputs).badPaintedPixels.length =
      (runUpdates cfg st inputs).nBadPaintedPixels := by
  induction inputs generalizing st with
  | nil => exact h
  | cons i is ih => exact ih _ (lengthInv_update cfg st i.1 i.2 h)

theorem similarInv_setImagePixels (cfg : Config) (st : SimState) (w h : Nat)
    (px : List RGB) (clear : Bool) :
    SimilarInv cfg (setImagePixels cfg st w h px clear) := by
  unfold setImagePixels
  split
  · exact similarPlaneOK_compute cfg (w * h) px (List.replicate (w * h) cfg.BACKGROUND_COLOR)
  · exact similarPlaneOK_compute cfg (w * h) px st.paintedPixels

theorem badInv_setImagePixels_noclear (cfg : Config) (st : SimState) (w h : Nat)
    (px : List RGB) : BadPaintedInv (setImagePixels cfg st w h px false) :=
  badPlaneOK_compute (w * h) (computeSimilar cfg (w * h) px st.paintedPixels)

theorem lengthInv_setImagePixels (cfg : Config) (st : SimState) (w h : Nat)
    (px : List RGB) (clear : Bool) :
    (setImagePixels cfg st w h px clear).badPaintedPixels.length =
      (setImagePixels cfg st w h px clear).nBadPaintedPixels := by
  unfold setImagePixels
  split
  · exact List.length_range (w * h)
  · exact rfl

/-! ## Lemmas on the brush schedule and the loop -/

theorem shrinkBrush_averageBrushSize (cfg : Config) (st : SimState) :
    (shrinkBrush cfg st).averageBrushSize = shrunkSize cfg st.averageBrushSize := by
  unfold shrinkBrush shrunkSize
  split
  · rfl
  · rfl

theorem shrunkSize_le (cfg : Config) (h0 : 0 ≤ cfg.SMALLER_BRUSH_SIZE)
    (hd : cfg.BRUSH_SIZE_DECREMENT ≤ 1) (a : ℚ) : shrunkSize cfg a ≤ a := by
  unfold shrunkSize
  split
  · next hlt => exact max_le hlt.le (mul_le_of_le_one_right (le_trans h0 hlt.le) hd)
  · exact le_refl a

theorem le_shrunkSize (cfg : Config) (a : ℚ) (ha : cfg.SMALLER_BRUSH_SIZE ≤ a) :
    cfg.SMALLER_BRUSH_SIZE ≤ shrunkSize cfg a := by
  unfold shrunkSize
  split
  · exact le_max_left _ _
  · exact ha

theorem update_averageBrushSize (cfg : Config) (st : SimState) (cand : TraceData)
    (sbs : Bool) :
    (update cfg st cand sbs).averageBrushSize = st.averageBrushSize ∨
      (update cfg st cand sbs).averageBrushSize = shrunkSize cfg st.averageBrushSize := by
  unfold update
  split
  · exact Or.inl rfl
  · split
    · split
      · unfold handleInvalidTrajectory checkTrajectoryBudget
        split
        · exact Or.inr (shrinkBrush_averageBrushSize cfg _)
        · exact Or.inl rfl
      · split
        · unfold handleInvalidTrace checkTraceBudget
          split
          · exact Or.inr (shrinkBrush_averageBrushSize cfg _)
          · exact Or.inl rfl
        · split
          · exact Or.inl rfl
          · exact Or.inl rfl
    · split
      · exact Or.inl rfl
      · exact Or.inl rfl

theorem update_of_finished (cfg : Config) (st : SimState) (cand : TraceData)
    (sbs : Bool) (h : st.paintingIsFinised = true) : update cfg st cand sbs = st := by
  unfold update
  rw [if_pos h]

theorem insidePointCount_cons (st : SimState) (p : Pt) (ps : List Pt) :
    insidePointCount st (p :: ps) =
      insidePointCount st ps +
        (if insideCanvas st.imgWidth st.imgHeight p then 1 else 0) := by
  simp [insidePointCount, List.countP_cons]

theorem visitedPointCount_cons (st : SimState) (p : Pt) (ps : List Pt) :
    visitedPointCount st (p :: ps) =
      visitedPointCount st ps + (if visitedInside st p then 1 else 0) := by
  simp [visitedPointCount, List.countP_cons]

theorem visitStats_eq (st : SimState) (pts : List Pt) :
    visitStats st pts = (insidePointCount st pts, visitedPointCount st pts) := by
  have go : ∀ (l : List Pt) (a b : Nat),
      l.foldl
        (fun acc p =>
          if insideCanvas st.imgWidth st.imgHeight p then
            (acc.1 + 1,
              if st.visitedPixels.getD (pixelIndex st.imgWidth p) 0 == 0 then acc.2
              else acc.2 + 1)
          else acc)
        (a, b) = (a + insidePointCount st l, b + visitedPointCount st l) := by
    intro l
    induction l with
    | nil => intro a b; simp [insidePointCount, visitedPointCount]
    | cons p ps ih =>
      intro a b
      rw [List.foldl_cons]
      dsimp only
      rw [insidePointCount_cons, visitedPointCount_cons]
      by_cases hin : insideCanvas st.imgWidth st.imgHeight p
      · have h1 : (if insideCanvas st.imgWidth st.imgHeight p then (1 : Nat) else 0) = 1 :=
          if_pos hin
        by_cases hv : st.visitedPixels.getD (pixelIndex st.imgWidth p) 0 == 0
        · have hb : visitedInside st p = false := by
            unfold visitedInside
            rw [hv]
            simp
          have h2 : (if visitedInside st p then (1 : Nat) else 0) = 0 := by
            rw [hb]
            simp
          rw [if_pos hin, if_pos hv, ih, h1, h2]
          refine Prod.ext ?_ ?_ <;> dsimp only <;> omega
        · have hvf : (st.visitedPixels.getD (pixelIndex st.imgWidth p) 0 == 0) = false := by
            simpa using hv
          have hb : visitedInside st p = true := by
            unfold visitedInside
            rw [hin, hvf]
            simp
          have h2 : (if visitedInside st p then (1 : Nat) else 0) = 1 := by
            rw [hb]
            simp
          rw [if_pos hin, if_neg hv, ih, h1, h2]
          refine Prod.ext ?_ ?_ <;> dsimp only <;> omega
      · have h1 : (if insideCanvas st.imgWidth st.imgHeight p then (1 : Nat) else 0) = 0 :=
          if_neg hin
        have hinf : insideCanvas st.imgWidth st.imgHeight p = false := by
          simpa using hin
        have hb : visitedInside st p = false := by
          unfold visitedInside
          rw [hinf]
          simp
        have h2 : (if visitedInside st p then (1 : Nat) else 0) = 0 := by
          rw [hb]
          simp
        rw [if_neg hin, ih, h1, h2]
        refine Prod.ext ?_ ?_ <;> dsimp only <;> omega
  simpa [visitStats] using go pts 0 0

/-! ## The claims -/

/-- C1: `traceImprovesPainting` returns true iff, over the in-canvas
(step, bristle) samples with precomputed bristle colors, the inside fraction
`Ntot / Nall` is at least `MIN_INSIDE_FRACTION`, the similar-color fraction
`Nsim / Ntot` is at most `MAX_SIMILAR_COLOR_FRACTION`, the already-painted
fraction `Npaintedish / Ntot` is at most `MAX_PAINTED_FRACTION`, and either
(a) `dOld / max(dNew, ε)` reaches `MIN_COLOR_IMPROVEMENT_FACTOR`,
`(wellBefore - wellAfter) / Ntot` stays within
`MAX_WELL_PAINTED_DESTRUCTION_FRACTION` and the bad-painted reduction over
`Ntot` reaches `MIN_BAD_PAINTED_REDUCTION_FRACTION`, or (b)
`(wellAfter - wellBefore) / Ntot` reaches
`BIG_WELL_PAINTED_IMPROVEMENT_FRACTION`. -/
theorem traceImprovesPainting_spec (cfg : Config) (st : SimState) (samples : List Sample) :
    traceImprovesPainting cfg st samples = true ↔
      (cfg.MIN_INSIDE_FRACTION ≤
          ((insideSamples st samples).length : ℚ) / (samples.length : ℚ) ∧
        (similarSampleCount cfg st samples : ℚ) / ((insideSamples st samples).length : ℚ) ≤
          cfg.MAX_SIMILAR_COLOR_FRACTION ∧
        (paintedSampleCount cfg st samples : ℚ) / ((insideSamples st samples).length : ℚ) ≤
          cfg.MAX_PAINTED_FRACTION ∧
        ((cfg.MIN_COLOR_IMPROVEMENT_FACTOR ≤
              meanDistOld st samples / max (meanDistNew st samples) cfg.epsilon ∧
            ((wellBeforeCount st samples : ℚ) - (wellAfterCount cfg st samples : ℚ)) /
                ((insideSamples st samples).length : ℚ) ≤
              cfg.MAX_WELL_PAINTED_DESTRUCTION_FRACTION ∧
            cfg.MIN_BAD_PAINTED_REDUCTION_FRACTION ≤
              (badPaintedReductionCount cfg st samples : ℚ) /
                ((insideSamples st samples).length : ℚ)) ∨
          cfg.BIG_WELL_PAINTED_IMPROVEMENT_FRACTION ≤
            ((wellAfterCount cfg st samples : ℚ) - (wellBeforeCount st samples : ℚ)) /
              ((insideSamples st samples).length : ℚ))) := by
  unfold traceImprovesPainting
  split_ifs with h1 h2 h3
  · exact iff_of_false (by simp) fun hc => absurd h1 (not_lt.mpr hc.1)
  · exact iff_of_false (by simp) fun hc => absurd h2 (not_lt.mpr hc.2.1)
  · exact iff_of_false (by simp) fun hc => absurd h3 (not_lt.mpr hc.2.2.1)
  · rw [decide_eq_true_eq]
    constructor
    · intro hp
      exact ⟨not_lt.mp h1, not_lt.mp h2, not_lt.mp h3, hp⟩
    · intro hc
      exact hc.2.2.2

/-- C3: `alreadyVisitedTrajectory` returns true iff the fraction of
trajectory points with a non-zero `visited` cell exceeds
`MAX_VISITS_FRACTION_IN_TRAJECTORY`, out-of-canvas points being excluded
from both the numerator and the denominator. -/
theorem alreadyVisitedTrajectory_spec (cfg : Config) (st : SimState) (pts : List Pt) :
    alreadyVisitedTrajectory cfg st pts = true ↔
      cfg.MAX_VISITS_FRACTION_IN_TRAJECTORY <
        (visitedPointCount st pts : ℚ) / (insidePointCount st pts : ℚ) := by
  unfold alreadyVisitedTrajectory
  rw [visitStats_eq]
  exact decide_eq_true_iff

/-- C2: when a counter budget forces a shrink, a brush above the floor size
becomes `max(SMALLER_BRUSH_SIZE, averageBrushSize * BRUSH_SIZE_DECREMENT)`
with both invalid counters reset, and a brush at the floor finishes the
painting; moreover the brush size starts at least at the floor after
`setImagePixels` and every `update` keeps it non-increasing and at least
`SMALLER_BRUSH_SIZE` (given a decrement factor at most one). -/
theorem brushSchedule_spec (cfg : Config) (h0 : 0 ≤ cfg.SMALLER_BRUSH_SIZE)
    (hd : cfg.BRUSH_SIZE_DECREMENT ≤ 1) :
    (∀ st : SimState, cfg.SMALLER_BRUSH_SIZE < st.averageBrushSize →
        shrinkBrush cfg st =
          { st with
            averageBrushSize :=
              max cfg.SMALLER_BRUSH_SIZE (st.averageBrushSize * cfg.BRUSH_SIZE_DECREMENT),
            invalidTrajectoriesCount := 0,
            invalidTracesCount := 0 }) ∧
    (∀ st : SimState, ¬cfg.SMALLER_BRUSH_SIZE < st.averageBrushSize →
        shrinkBrush cfg st = { st with paintingIsFinised := true }) ∧
    (∀ (st : SimState) (w h : Nat) (px : List RGB) (c : Bool),
        cfg.SMALLER_BRUSH_SIZE ≤ (setImagePixels cfg st w h px c).averageBrushSize) ∧
    (∀ (st : SimState) (cand : TraceData) (sbs : Bool),
        cfg.SMALLER_BRUSH_SIZE ≤ st.averageBrushSize →
          (update cfg st cand sbs).averageBrushSize ≤ st.averageBrushSize ∧
            cfg.SMALLER_BRUSH_SIZE ≤ (update cfg st cand sbs).averageBrushSize) := by
  refine ⟨?_, ?_, ?_, ?_⟩
  · intro st hlt
    unfold shrinkBrush
    rw [if_pos hlt]
  · intro st hlt
    unfold shrinkBrush
    rw [if_neg hlt]
  · intro st w hh px c
    unfold setImagePixels
    split
    · exact le_max_left _ _
    · exact le_max_left _ _
  · intro st cand sbs hs
    rcases update_averageBrushSize cfg st cand sbs with heq | heq
    · rw [heq]
      exact ⟨le_refl _, hs⟩
    · rw [heq]
      exact ⟨shrunkSize_le cfg h0 hd _, le_shrunkSize cfg _ hs⟩

/-- Witness for C2 at the sample configuration and state. -/
theorem brushSchedule_spec_witness :
    (0 : ℚ) ≤ exCfg.SMALLER_BRUSH_SIZE ∧ exCfg.BRUSH_SIZE_DECREMENT ≤ 1 ∧
      shrinkBrush exCfg exSt =
        { exSt with
          averageBrushSize :=
            max exCfg.SMALLER_BRUSH_SIZE (exSt.averageBrushSize * exCfg.BRUSH_SIZE_DECREMENT),
          invalidTrajectoriesCount := 0,
          invalidTracesCount := 0 } :=
  ⟨by norm_num [exCfg], by norm_num [exCfg],
    (brushSchedule_spec exCfg (by norm_num [exCfg]) (by norm_num [exCfg])).1 exSt
      (by norm_num [exCfg, exSt])⟩

/-- C4: after rebinding a target and any sequence of `update` calls, every
in-canvas cell of the `similar` plane is `0` or `255`, and is `255` exactly
when the painted color matches the target within `MAX_COLOR_DIFFERENCE` on
every channel. -/
theorem similarPlane_invariant (cfg : Config) (st : SimState) (w h : Nat) (px : List RGB)
    (clear : Bool) (inputs : List (TraceData × Bool)) :
    SimilarInv cfg (runUpdates cfg (setImagePixels cfg st w h px clear) inputs) :=
  similarInv_runUpdates cfg _ inputs (similarInv_setImagePixels cfg st w h px clear)

/-- C5 (amended): after `setImagePixels` with `clearCanvas = false` and any
sequence of updates, `badPaintedPixels` holds exactly the indices whose
`similar` cell is `0`, with `|badPainted| = nBadPaintedPixels = ` that
count; the length equality also holds on every run that starts with
`clearCanvas = true`, but there `badPaintedPixels` is refilled with all
pixel indices, which need not coincide with the bad-painted set. -/
theorem badPainted_invariant_amended :
    (∀ (cfg : Config) (st : SimState) (w h : Nat) (px : List RGB)
        (inputs : List (TraceData × Bool)),
        BadPaintedInv (runUpdates cfg (setImagePixels cfg st w h px false) inputs)) ∧
    (∀ (cfg : Config) (st : SimState) (w h : Nat) (px : List RGB) (clear : Bool)
        (inputs : List (TraceData × Bool)),
        (runUpdates cfg (setImagePixels cfg st w h px clear) inputs).badPaintedPixels.length =
          (runUpdates cfg (setImagePixels cfg st w h px clear) inputs).nBadPaintedPixels) ∧
    (∀ (cfg : Config) (st : SimState) (w h : Nat) (px : List RGB),
        (setImagePixels cfg st w h px true).badPaintedPixels = List.range (w * h)) :=
  ⟨fun cfg st w h px inputs =>
      badInv_runUpdates cfg _ inputs (badInv_setImagePixels_noclear cfg st w h px),
    fun cfg st w h px clear inputs =>
      lengthInv_runUpdates cfg _ inputs (lengthInv_setImagePixels cfg st w h px clear),
    fun cfg st w h px => rfl⟩

/-- Counterexample to C5 as stated: clearing the canvas over a 1×1 target
equal to `BACKGROUND_COLOR` leaves `badPaintedPixels = [0]` while the single
pixel's `similar` cell is `255`, so the list is not the set of pixels with
`similar = 0` after that public call. -/
theorem badPainted_after_clear_cex :
    ¬(∀ i ∈ exClearSt.badPaintedPixels, exClearSt.similarColorPixels.getD i 0 = 0) := by
  decide

/-- C6: `setImagePixels` with `clearCanvas = true` yields a state whose
painted plane is `BACKGROUND_COLOR` everywhere, whose `visited` plane is `0`
everywhere, whose `similar` plane satisfies the similar-plane predicate, and
whose `badPaintedPixels` is a permutation of all pixel indices. -/
theorem setImagePixels_clear_spec (cfg : Config) (st : SimState) (w h : Nat)
    (px : List RGB) :
    (∀ p, p < w * h →
        (setImagePixels cfg st w h px true).paintedPixels.getD p default =
          cfg.BACKGROUND_COLOR) ∧
    (∀ p, p < w * h → (setImagePixels cfg st w h px true).visitedPixels.getD p 0 = 0) ∧
    SimilarInv cfg (setImagePixels cfg st w h px true) ∧
    (setImagePixels cfg st w h px true).badPaintedPixels.Perm (List.range (w * h)) := by
  refine ⟨?_, ?_, similarInv_setImagePixels cfg st w h px true, ?_⟩
  · intro p hp
    show (List.replicate (w * h) cfg.BACKGROUND_COLOR).getD p default = cfg.BACKGROUND_COLOR
    rw [List.getD_eq_getElem?_getD, List.getElem?_replicate]
    simp [hp]
  · intro p hp
    show (List.replicate (w * h) (0 : Nat)).getD p 0 = 0
    rw [List.getD_eq_getElem?_getD, List.getElem?_replicate]
    simp [hp]
  · show (List.range (w * h)).Perm (List.range (w * h))
    exact List.Perm.refl _

/-- C7: once `isFinished` reports true, `update` is the identity on the
whole simulator state, for both values of `stepByStep` and any candidate
trace. -/
theorem update_after_finished (cfg : Config) (st : SimState) (cand : TraceData)
    (sbs : Bool) (h : isFinished st = true) : update cfg st cand sbs = st :=
  update_of_finished cfg st cand sbs h

/-- Witness for C7 at the sample finished state. -/
theorem update_after_finished_witness :
    isFinished exFinishedSt = true ∧ update exCfg exFinishedSt exTrace true = exFinishedSt :=
  ⟨rfl, update_after_finished exCfg exFinishedSt exTrace true rfl⟩

/-- C8: once `paintingIsFinised` is set it survives any further sequence of
`update` calls: the flag never reverts, so over a session it rises from
false to true at most once. -/
theorem paintingFinished_never_reverts (cfg : Config) (st : SimState)
    (inputs : List (TraceData × Bool)) (h : st.paintingIsFinised = true) :
    (runUpdates cfg st inputs).paintingIsFinised = true := by
  induction inputs generalizing st with
  | nil => exact h
  | cons i is ih =>
    show (runUpdates cfg (update cfg st i.1 i.2) is).paintingIsFinised = true
    rw [update_of_finished cfg st i.1 i.2 h]
    exact ih st h

/-- Witness for C8 at the sample finished state. -/
theorem paintingFinished_never_reverts_witness :
    exFinishedSt.paintingIsFinised = true ∧
      (runUpdates exCfg exFinishedSt [(exTrace, false)]).paintingIsFinised = true :=
  ⟨rfl, paintingFinished_never_reverts exCfg exFinishedSt [(exTrace, false)] rfl⟩

/-- Counterexample to C9 as stated: a shrink that changes the brush size
leaves `nTraces` untouched (here at its previous value 5), so not all three
counters are reset on a brush-size change. -/
theorem shrink_nTraces_cex :
    (shrinkBrush exCfg exSt).averageBrushSize ≠ exSt.averageBrushSize ∧
      (shrinkBrush exCfg exSt).nTraces ≠ 0 := by
  have h : exCfg.SMALLER_BRUSH_SIZE < exSt.averageBrushSize := by norm_num [exCfg, exSt]
  unfold shrinkBrush
  rw [if_pos h]
  refine ⟨?_, by norm_num [exSt]⟩
  show max exCfg.SMALLER_BRUSH_SIZE (exSt.averageBrushSize * exCfg.BRUSH_SIZE_DECREMENT) ≠
    exSt.averageBrushSize
  norm_num [exCfg, exSt, max_def]

/-- C9 (amended): a shrink that changes the brush size resets the
invalid-trajectory and invalid-trace counters but leaves `nTraces`
unchanged. -/
theorem shrink_resets_invalid_counters (cfg : Config) (st : SimState)
    (h : cfg.SMALLER_BRUSH_SIZE < st.averageBrushSize) :
    (shrinkBrush cfg st).invalidTrajectoriesCount = 0 ∧
      (shrinkBrush cfg st).invalidTracesCount = 0 ∧
      (shrinkBrush cfg st).nTraces = st.nTraces := by
  unfold shrinkBrush
  rw [if_pos h]
  exact ⟨rfl, rfl, rfl⟩

/-- Witness for the amended C9 at the sample state. -/
theorem shrink_resets_invalid_counters_witness :
    exCfg.SMALLER_BRUSH_SIZE < exSt.averageBrushSize ∧
      (shrinkBrush exCfg exSt).invalidTrajectoriesCount = 0 :=
  ⟨by norm_num [exCfg, exSt],
    (shrink_resets_invalid_counters exCfg exSt (by norm_num [exCfg, exSt])).1⟩

/-- C10: the no-argument construction applies the declared default
arguments: `useCanvasBuffer = true` and `verbose = true`. -/
theorem constructor_default_flags :
    mkOfxOilSimulatorNoArgs.useCanvasBuffer = true ∧
      mkOfxOilSimulatorNoArgs.verbose = true :=
  ⟨rfl, rfl⟩

end OfxOil
